import Mathlib

/-!
Verification of the diary static-site generator (`diary/generate_diary.py`).

The Python program is shallowly embedded: each Python function becomes an
executable Lean definition over `String`/`List Char`, file-system effects are
made explicit (the set of `*.txt` sources is an input list of
`(stem, raw text)` pairs; a run's output is the list of `(path, contents)`
writes it performs), and Python library primitives used by the script
(`str.strip`, `str.split`, `str.replace`, `file.readlines`, stable `sorted`,
insertion-ordered `defaultdict` grouping, `datetime.strptime` with format
`"%Y-%m-%d"`) are modelled by small recursive functions below.
-/

/-! ## Python string primitives -/

/-- The ASCII whitespace characters stripped by Python `str.strip()`
(the model restricts attention to ASCII input). -/
def isPySpace (c : Char) : Bool :=
  c = ' ' || c = '\t' || c = '\n' || c = '\x0d' || c = '\x0b' || c = '\x0c'

/-- `str.strip()` on the character list: drop whitespace from both ends. -/
def stripChars (cs : List Char) : List Char :=
  ((cs.dropWhile isPySpace).reverse.dropWhile isPySpace).reverse

/-- Python `s.strip()`. -/
def pyStrip (s : String) : String := ⟨stripChars s.data⟩

/-- Prepend a character to the first group of a split result. -/
def consHead (c : Char) : List (List Char) → List (List Char)
  | [] => [[c]]
  | g :: gs => (c :: g) :: gs

/-- Python `s.split('\x0a')` (split on every single newline, keeping empties). -/
def splitNl : List Char → List (List Char)
  | [] => [[]]
  | c :: rest =>
    if c = '\n' then [] :: splitNl rest
    else consHead c (splitNl rest)

/-- Python `s.split('\x0a\x0a')`: split on each non-overlapping occurrence of a
blank-line separator, scanning left to right and keeping empty pieces. -/
def splitBlank : List Char → List (List Char)
  | [] => [[]]
  | [c] => [[c]]
  | c :: c2 :: rest2 =>
    if c = '\n' ∧ c2 = '\n' then [] :: splitBlank rest2
    else consHead c (splitBlank (c2 :: rest2))

/-- Python `content.split('\x0a\x0a')` at the `String` level. -/
def pySplitBlank (s : String) : List String :=
  (splitBlank s.data).map (fun l => ⟨l⟩)

/-- Python `content.split('\x0a')[0]`: the first line of a string
(`str.split` always returns a non-empty list, so indexing by 0 is total). -/
def firstLineOf (s : String) : String := ⟨(splitNl s.data).headD []⟩

/-- Python `para.replace('\x0a', '<br />\x0a')`. -/
def replaceNlBr : List Char → List Char
  | [] => []
  | c :: rest =>
    if c = '\n' then '<' :: 'b' :: 'r' :: ' ' :: '/' :: '>' :: '\n' :: replaceNlBr rest
    else c :: replaceNlBr rest

/-- Python slicing `s[:n]` (by code points). -/
def pyTake (s : String) (n : Nat) : String := ⟨s.data.take n⟩

/-- If `pat` is a prefix of the list, return the remainder. -/
def matchPat : List Char → List Char → Option (List Char)
  | [], rest => some rest
  | _ :: _, [] => none
  | p :: ps, c :: cs => if c = p then matchPat ps cs else none

/-- Fuel-bounded worker for `str.replace`: the fuel is an upper bound on the
number of characters left, so the recursion is structural. -/
def replaceAllAux (pat rep : List Char) : Nat → List Char → List Char
  | _, [] => []
  | 0, cs => cs
  | fuel + 1, c :: cs =>
    match matchPat pat (c :: cs) with
    | some rest => rep ++ replaceAllAux pat rep fuel rest
    | none => c :: replaceAllAux pat rep fuel cs

/-- Python `s.replace(pat, rep)` (all non-overlapping occurrences, left to
right). Only used with non-empty `pat`. -/
def pyReplaceStr (s pat rep : String) : String :=
  ⟨replaceAllAux pat.data rep.data s.data.length s.data⟩

/-- Python `file.readlines()`: split into lines, each keeping its trailing
newline; a final fragment without a newline is kept, an empty file gives `[]`. -/
def readlinesList : List Char → List (List Char)
  | [] => []
  | c :: rest =>
    if c = '\n' then ['\n'] :: readlinesList rest
    else consHead c (readlinesList rest)

/-- `readlines` at the `String` level. -/
def readlines (s : String) : List String :=
  (readlinesList s.data).map (fun l => ⟨l⟩)

/-- Python `sep.join(parts)` for a separator string. -/
def joinSep (sep : String) : List String → String
  | [] => ""
  | [x] => x
  | x :: y :: xs => x ++ sep ++ joinSep sep (y :: xs)

/-- Python `str.capitalize()`: first character upper-cased, rest lower-cased. -/
def pyCapitalize (s : String) : String :=
  match s.data with
  | [] => ""
  | c :: rest => ⟨c.toUpper :: rest.map Char.toLower⟩

/-! ## `datetime.strptime(stem, "%Y-%m-%d")`

CPython compiles the format to the regex
`(?P<Y>\d\d\d\d)\-(?P<m>1[0-2]|0[1-9]|[1-9])\-(?P<d>3[01]|[12]\d|0[1-9]|[1-9])`,
matches it at the start of the string (first alternative wins, with
backtracking on later failure inside the regex), then requires the match to
cover the whole string and the resulting numbers to form a valid
`datetime.date` (year at least `MINYEAR = 1`, day within the month). -/

/-- A calendar date as produced by the filename parse (`date_obj`). -/
structure Date where
  year : Nat
  month : Nat
  day : Nat
deriving DecidableEq

/-- Numeric value of an ASCII digit, `none` for other characters. -/
def digitVal (c : Char) : Option Nat :=
  if '0' ≤ c ∧ c ≤ '9' then some (c.toNat - 48) else none

/-- Day alternative `3[01]`. -/
def altD1 : List Char → Option (Nat × List Char)
  | '3' :: c :: rest => if c = '0' ∨ c = '1' then some (30 + (c.toNat - 48), rest) else none
  | _ => none

/-- Day alternative `[12]\d`. -/
def altD2 : List Char → Option (Nat × List Char)
  | c1 :: c2 :: rest =>
    if c1 = '1' ∨ c1 = '2' then
      match digitVal c2 with
      | some d => some (10 * (c1.toNat - 48) + d, rest)
      | none => none
    else none
  | _ => none

/-- Shared alternative `0[1-9]` (used by both the month and the day group). -/
def altZeroPad : List Char → Option (Nat × List Char)
  | '0' :: c :: rest => if '1' ≤ c ∧ c ≤ '9' then some (c.toNat - 48, rest) else none
  | _ => none

/-- Shared alternative `[1-9]` (used by both the month and the day group). -/
def altSingle : List Char → Option (Nat × List Char)
  | c :: rest => if '1' ≤ c ∧ c ≤ '9' then some (c.toNat - 48, rest) else none
  | [] => none

/-- The day group `3[01]|[12]\d|0[1-9]|[1-9]`: first alternative that matches. -/
def dayMatch (cs : List Char) : Option (Nat × List Char) :=
  (altD1 cs) <|> (altD2 cs) <|> (altZeroPad cs) <|> (altSingle cs)

/-- Month alternative `1[0-2]`. -/
def altM1 : List Char → Option (Nat × List Char)
  | '1' :: c :: rest =>
    if c = '0' ∨ c = '1' ∨ c = '2' then some (10 + (c.toNat - 48), rest) else none
  | _ => none

/-- All matches of the month group `1[0-2]|0[1-9]|[1-9]`, in regex
preference order (kept as a list because the regex engine backtracks into
this group when the rest of the pattern fails). -/
def monthMatches (cs : List Char) : List (Nat × List Char) :=
  [altM1 cs, altZeroPad cs, altSingle cs].filterMap id

/-- Try the month alternatives in order: each must be followed by the literal
`-` and a day-group match, otherwise the regex backtracks to the next month
alternative. The first full regex match wins (any leftover input is dealt
with by the caller, without further backtracking, as in CPython where the
all-consumed check happens after `regex.match` returns). -/
def tryMonthsDay : List (Nat × List Char) → Option (Nat × Nat × List Char)
  | [] => none
  | (m, rest) :: alts =>
    match rest with
    | '-' :: rest2 =>
      match dayMatch rest2 with
      | some (d, rest3) => some (m, d, rest3)
      | none => tryMonthsDay alts
    | _ => tryMonthsDay alts

/-- Gregorian leap year, as in Python's `calendar`/`datetime`. -/
def isLeapYear (y : Nat) : Bool :=
  (y % 4 == 0 && y % 100 != 0) || y % 400 == 0

/-- Number of days in a month, as validated by `datetime.date`. -/
def daysInMonth (y m : Nat) : Nat :=
  if m = 2 then (if isLeapYear y then 29 else 28)
  else if m = 4 ∨ m = 6 ∨ m = 9 ∨ m = 11 then 30 else 31

/-- `datetime.strptime(s, "%Y-%m-%d")`: `some` date on success, `none` when
the Python call raises `ValueError`. -/
def strptimeYMD (s : String) : Option Date :=
  match s.data with
  | c1 :: c2 :: c3 :: c4 :: '-' :: rest =>
    match digitVal c1, digitVal c2, digitVal c3, digitVal c4 with
    | some a, some b, some c, some d =>
      let y := 1000 * a + 100 * b + 10 * c + d
      match tryMonthsDay (monthMatches rest) with
      | some (m, day, rest3) =>
        if rest3 = [] ∧ 1 ≤ y ∧ day ≤ daysInMonth y m then
          some ⟨y, m, day⟩
        else none
      | none => none
    | _, _, _, _ => none
  | _ => none

/-- `date_obj.strftime("%B").lower()` for the twelve valid month numbers. -/
def monthNameLower : Nat → String
  | 1 => "january"
  | 2 => "february"
  | 3 => "march"
  | 4 => "april"
  | 5 => "may"
  | 6 => "june"
  | 7 => "july"
  | 8 => "august"
  | 9 => "september"
  | 10 => "october"
  | 11 => "november"
  | 12 => "december"
  | _ => ""

/-! ## `parse_entry_file` -/

/-- The in-memory record built by `parse_entry_file` (the Python dict). -/
structure Entry where
  date_str : String
  title : String
  content : String
  year : Nat
  month : Nat
  month_name : String
  day : Nat
  filename : String
  date_obj : Date
deriving DecidableEq

/-- A junk entry used only to model Python's partial list indexing at spots
the program never reaches with an empty list. -/
def entryDefault : Entry :=
  { date_str := "", title := "", content := "", year := 0, month := 0,
    month_name := "", day := 0, filename := "", date_obj := ⟨0, 0, 0⟩ }

/-- Outcome of `parse_entry_file`: an entry, a silent skip of a file with no
lines, or a skip with the printed warning text for an unparseable filename. -/
inductive ParseResult
  | ok (e : Entry)
  | skippedEmpty
  | skippedBadDate (warning : String)
deriving DecidableEq

/-- `parse_entry_file(filepath)`, with the file presented as its filename stem
(`Path(filepath).stem`) plus its raw text. -/
def parse_entry_file (stem text : String) : ParseResult :=
  let lines := readlines text
  if lines.length < 1 then ParseResult.skippedEmpty
  else
    let date_str := pyStrip (lines.getD 0 "")
    let tc : String × Nat :=
      if 1 < lines.length ∧ pyStrip (lines.getD 1 "") ≠ "" then
        (pyStrip (lines.getD 1 ""), 2)
      else ("Diary Entry", 1)
    let content := pyStrip (String.join (lines.drop tc.2))
    match strptimeYMD stem with
    | none =>
      ParseResult.skippedBadDate ("Warning: Could not parse date from filename " ++ stem)
    | some d =>
      ParseResult.ok
        { date_str := date_str, title := tc.1, content := content,
          year := d.year, month := d.month, month_name := monthNameLower d.month,
          day := d.day, filename := stem, date_obj := d }

/-! ## HTML templates

The fixed text of the three page templates, cut at the f-string
interpolation points. -/

/-- Entry-page template text, segment 1. -/
def entryPageA : String :=
  "<!DOCTYPE HTML>\n<html>\n<head>\n    <title>"

/-- Entry-page template text, segment 2. -/
def entryPageB : String :=
  " - Vamsi Hemadri</title>\n    <meta charset=\"utf-8\" />\n    <meta name=\"viewport\" content=\"width=device-width, initial-scale=1, user-scalable=no\" />\n    <link rel=\"stylesheet\" href=\"../../../assets/css/main.css\" />\n    <noscript><link rel=\"stylesheet\" href=\"../../../assets/css/noscript.css\" /></noscript>\n</head>\n<body class=\"is-preload\">\n\n<div id=\"wrapper\">\n    <header id=\"header\">\n        <a href=\"../../../index.html\" class=\"logo\"><strong>Vamsi Hemadri</strong></a>\n        <nav>\n            <a href=\"#menu\">Menu</a>\n        </nav>\n    </header>\n\n    <nav id=\"menu\">\n        <ul class=\"links\">\n            <li><a href=\"../../../index.html\">Home</a></li>\n            <li><a href=\"../../../learnings/learningsLanding.html\">Learnings</a></li>\n            <li><a href=\"../../diaryLanding.html\">Thoughts</a></li>\n        </ul>\n    </nav>\n\n    <div id=\"main\" class=\"alt\">\n        <section id=\"one\">\n            <div class=\"inner\">\n                <header class=\"major\">\n                    <h1>"

/-- Entry-page template text, segment 3. -/
def entryPageC : String :=
  "</h1>\n                </header>\n                <p><a href=\"../"

/-- Entry-page template text, segment 4. -/
def entryPageD : String :=
  "-index.html\">← Back to "

/-- Entry-page template text, segment 5. -/
def entryPageE : String :=
  "</a> | <a href=\"../../diaryLanding.html\">← Diary Home</a></p>\n                \n                <h2>"

/-- Entry-page template text, segment 6. -/
def entryPageF : String :=
  "</h2>\n                "

/-- Entry-page template text, segment 7. -/
def entryPageG : String :=
  "\n                \n            </div>\n        </section>\n    </div>\n\n    <footer id=\"footer\">\n        <div class=\"inner\">\n            <ul class=\"copyright\">\n                <li>&copy; Vamsi Hemadri</li><li>Design: <a href=\"https://html5up.net\">HTML5 UP</a></li>\n            </ul>\n        </div>\n    </footer>\n</div>\n\n<script src=\"../../../assets/js/jquery.min.js\"></script>\n<script src=\"../../../assets/js/jquery.scrolly.min.js\"></script>\n<script src=\"../../../assets/js/jquery.scrollex.min.js\"></script>\n<script src=\"../../../assets/js/browser.min.js\"></script>\n<script src=\"../../../assets/js/breakpoints.min.js\"></script>\n<script src=\"../../../assets/js/util.js\"></script>\n<script src=\"../../../assets/js/main.js\"></script>\n\n</body>\n</html>\n"

/-- Month-section template text, segment 1. -/
def msA : String :=
  "\n                <h2>"

/-- Month-section template text, segment 2. -/
def msB : String :=
  "</h2>\n                <ul>\n                    "

/-- Month-section template text, segment 3. -/
def msC : String :=
  "\n                </ul>\n"

/-- Year-index template text, segment 1. -/
def yiA : String :=
  "<!DOCTYPE HTML>\n<html>\n<head>\n    <title>"

/-- Year-index template text, segment 2. -/
def yiB : String :=
  " Diary - Vamsi Hemadri</title>\n    <meta charset=\"utf-8\" />\n    <meta name=\"viewport\" content=\"width=device-width, initial-scale=1, user-scalable=no\" />\n    <link rel=\"stylesheet\" href=\"../../assets/css/main.css\" />\n    <noscript><link rel=\"stylesheet\" href=\"../../assets/css/noscript.css\" /></noscript>\n</head>\n<body class=\"is-preload\">\n\n<div id=\"wrapper\">\n    <header id=\"header\">\n        <a href=\"../../index.html\" class=\"logo\"><strong>Vamsi Hemadri</strong></a>\n        <nav>\n            <a href=\"#menu\">Menu</a>\n        </nav>\n    </header>\n\n    <nav id=\"menu\">\n        <ul class=\"links\">\n            <li><a href=\"../../index.html\">Home</a></li>\n            <li><a href=\"../../learnings/learningsLanding.html\">Learnings</a></li>\n            <li><a href=\"../diaryLanding.html\">Thoughts</a></li>\n        </ul>\n    </nav>\n\n    <div id=\"main\" class=\"alt\">\n        <section id=\"one\">\n            <div class=\"inner\">\n                <header class=\"major\">\n                    <h1>"

/-- Year-index template text, segment 3. -/
def yiC : String :=
  " Diary Entries</h1>\n                </header>\n                <p><a href=\"../diaryLanding.html\">← Back to Diary Home</a></p>\n                "

/-- Year-index template text, segment 4. -/
def yiD : String :=
  "\n            </div>\n        </section>\n    </div>\n\n    <footer id=\"footer\">\n        <div class=\"inner\">\n            <ul class=\"copyright\">\n                <li>&copy; Vamsi Hemadri</li><li>Design: <a href=\"https://html5up.net\">HTML5 UP</a></li>\n            </ul>\n        </div>\n    </footer>\n</div>\n\n<script src=\"../../assets/js/jquery.min.js\"></script>\n<script src=\"../../assets/js/jquery.scrolly.min.js\"></script>\n<script src=\"../../assets/js/jquery.scrollex.min.js\"></script>\n<script src=\"../../assets/js/browser.min.js\"></script>\n<script src=\"../../assets/js/breakpoints.min.js\"></script>\n<script src=\"../../assets/js/util.js\"></script>\n<script src=\"../../assets/js/main.js\"></script>\n\n</body>\n</html>\n"

/-- Landing-page year-section template text, segment 1. -/
def lsA : String :=
  "\n                <h2>"

/-- Landing-page year-section template text, segment 2. -/
def lsB : String :=
  "</h2>\n                <ul class=\"actions\">\n                    <li><a href=\""

/-- Landing-page year-section template text, segment 3. -/
def lsC : String :=
  "/"

/-- Landing-page year-section template text, segment 4. -/
def lsD : String :=
  "-index.html\" class=\"button\">View All Entries</a></li>\n                </ul>\n                <h3>Recent Entries</h3>\n                <ul>\n                    "

/-- Landing-page year-section template text, segment 5. -/
def lsE : String :=
  "\n                </ul>\n                \n                <hr style=\"margin: 3em 0;\" />\n"

/-- Landing-page template text, segment 1. -/
def lpA : String :=
  "<!DOCTYPE HTML>\n<!--\n\tForty by HTML5 UP\n\thtml5up.net | @ajlkn\n\tFree for personal and commercial use under the CCA 3.0 license (html5up.net/license)\n-->\n<html>\n<head>\n    <title>My Diary - Vamsi Hemadri</title>\n    <meta charset=\"utf-8\" />\n    <meta name=\"viewport\" content=\"width=device-width, initial-scale=1, user-scalable=no\" />\n    <link rel=\"stylesheet\" href=\"../assets/css/main.css\" />\n    <noscript><link rel=\"stylesheet\" href=\"../assets/css/noscript.css\" /></noscript>\n</head>\n<body class=\"is-preload\">\n\n<!-- Wrapper -->\n<div id=\"wrapper\">\n\n    <!-- Header -->\n    <header id=\"header\">\n        <a href=\"../index.html\" class=\"logo\"><strong>Vamsi Hemadri</strong></a>\n        <nav>\n            <a href=\"#menu\">Menu</a>\n        </nav>\n    </header>\n\n    <!-- Menu -->\n    <nav id=\"menu\">\n        <ul class=\"links\">\n            <li><a href=\"../index.html\">Home</a></li>\n            <li><a href=\"../learnings/learningsLanding.html\">Learnings</a></li>\n            <li><a href=\"diaryLanding.html\">Thoughts</a></li>\n        </ul>\n    </nav>\n\n    <!-- Main -->\n    <div id=\"main\" class=\"alt\">\n\n        <!-- One -->\n        <section id=\"one\">\n            <div class=\"inner\">\n                <header class=\"major\">\n                    <h1>My Diary</h1>\n                </header>\n                <p>A personal space for thoughts, reflections, and daily observations. My journey captured in words, organized by time.</p>\n            </div>\n        </section>\n\n        <!-- Two -->\n        <section id=\"two\">\n            <div class=\"inner\">\n                "

/-- Landing-page template text, segment 2. -/
def lpB : String :=
  "\n            </div>\n        </section>\n\n    </div>\n\n    <!-- Contact -->\n    <section id=\"contact\">\n        <div class=\"inner\">\n            <section>\n                <form method=\"post\" action=\"#\">\n                    <div class=\"fields\">\n                        <div class=\"field half\">\n                            <label for=\"name\">Name</label>\n                            <input type=\"text\" name=\"name\" id=\"name\" />\n                        </div>\n                        <div class=\"field half\">\n                            <label for=\"email\">Email</label>\n                            <input type=\"text\" name=\"email\" id=\"email\" />\n                        </div>\n                        <div class=\"field\">\n                            <label for=\"message\">Message</label>\n                            <textarea name=\"message\" id=\"message\" rows=\"6\"></textarea>\n                        </div>\n                    </div>\n                    <ul class=\"actions\">\n                        <li><input type=\"submit\" value=\"Send Message\" class=\"primary\" /></li>\n                        <li><input type=\"reset\" value=\"Clear\" /></li>\n                    </ul>\n                </form>\n            </section>\n            <section class=\"split\">\n                <section>\n                    <div class=\"contact-method\">\n                        <span class=\"icon solid alt fa-envelope\"></span>\n                        <h3>Email</h3>\n                        <a href=\"#\">13vamsihemadri@gmail.com</a>\n                    </div>\n                </section>\n                <section>\n                    <div class=\"contact-method\">\n                        <span class=\"icon solid alt fa-phone\"></span>\n                        <h3>Phone</h3>\n                        <span>(+91) 789-688 0545</span>\n                    </div>\n                </section>\n                <section>\n                    <div class=\"contact-method\">\n                        <span class=\"icon solid alt fa-home\"></span>\n                        <h3>Address</h3>\n                        <span>Bengaluru<br />\n                        Bengaluru<br />\n                        India</span>\n                    </div>\n                </section>\n            </section>\n        </div>\n    </section>\n\n    <!-- Footer -->\n    <footer id=\"footer\">\n        <div class=\"inner\">\n            <ul class=\"icons\">\n                <li><a href=\"#\" class=\"icon brands alt fa-twitter\"><span class=\"label\">Twitter</span></a></li>\n                <li><a href=\"#\" class=\"icon brands alt fa-facebook-f\"><span class=\"label\">Facebook</span></a></li>\n                <li><a href=\"#\" class=\"icon brands alt fa-instagram\"><span class=\"label\">Instagram</span></a></li>\n                <li><a href=\"#\" class=\"icon brands alt fa-github\"><span class=\"label\">GitHub</span></a></li>\n                <li><a href=\"#\" class=\"icon brands alt fa-linkedin-in\"><span class=\"label\">LinkedIn</span></a></li>\n            </ul>\n            <ul class=\"copyright\">\n                <li>&copy; Vamsi Hemadri</li><li>Design: <a href=\"https://html5up.net\">HTML5 UP</a></li>\n            </ul>\n        </div>\n    </footer>\n\n</div>\n\n<!-- Scripts -->\n<script src=\"../assets/js/jquery.min.js\"></script>\n<script src=\"../assets/js/jquery.scrolly.min.js\"></script>\n<script src=\"../assets/js/jquery.scrollex.min.js\"></script>\n<script src=\"../assets/js/browser.min.js\"></script>\n<script src=\"../assets/js/breakpoints.min.js\"></script>\n<script src=\"../assets/js/util.js\"></script>\n<script src=\"../assets/js/main.js\"></script>\n\n</body>\n</html>\n"

/-! ## `format_content_to_html` -/

/-- The `html_parts` list built by the loop in `format_content_to_html`:
each blank-line-delimited piece is stripped, empty pieces are dropped, and
kept pieces are wrapped in a paragraph tag with inner newlines turned into
`<br />` line breaks. -/
def format_content_parts (content : String) : List String :=
  (pySplitBlank content).foldl
    (fun html_parts para =>
      let para2 := pyStrip para
      if para2 ≠ "" then
        html_parts ++ ["<p>" ++ (⟨replaceNlBr para2.data⟩ : String) ++ "</p>"]
      else html_parts)
    []

/-- `format_content_to_html(content)`. -/
def format_content_to_html (content : String) : String :=
  joinSep "\n\n" (format_content_parts content)

/-! ## Stable sorting (Python `sorted` / `list.sort`)

Python's `sorted` is a stable sort; a stable sort for a total transitive
boolean comparison is unique as a function of the input list, so the
insertion sort below is an exact model (`reverse=True` is also stable, and
corresponds to sorting with the flipped comparison). -/

/-- Insert `x` in front of the first element not strictly before it. -/
def insertS (le : α → α → Bool) (x : α) : List α → List α
  | [] => [x]
  | y :: ys => if le x y then x :: y :: ys else y :: insertS le x ys

/-- Stable insertion sort: the model of Python `sorted(l, key=...)`. -/
def pySorted (le : α → α → Bool) : List α → List α
  | [] => []
  | x :: xs => insertS le x (pySorted le xs)

/-- Lexicographic order on `datetime.date` values (how Python compares
`date_obj` keys). -/
def dateLe (a b : Date) : Bool :=
  decide (a.year < b.year) ||
    (decide (a.year = b.year) &&
      (decide (a.month < b.month) ||
        (decide (a.month = b.month) && decide (a.day ≤ b.day))))

/-! ## Grouping (`defaultdict(list)` keyed by month / year)

A Python dict keeps keys in insertion order; grouping appends each entry to
its key's list, creating the key at the back on first sight. -/

/-- Append `e` to the group of key `k`, creating the group at the end if the
key is new. -/
def addToGroups (g : List (Nat × List Entry)) (k : Nat) (e : Entry) :
    List (Nat × List Entry) :=
  match g with
  | [] => [(k, [e])]
  | (k2, es) :: rest =>
    if k2 = k then (k2, es ++ [e]) :: rest else (k2, es) :: addToGroups rest k e

/-- `defaultdict(list)` grouping of entries under an integer key, keys kept in
insertion order. -/
def groupByKey (key : Entry → Nat) (l : List Entry) : List (Nat × List Entry) :=
  l.foldl (fun acc e => addToGroups acc (key e) e) []

/-- Dict lookup: the list stored under `k` (empty when absent — the program
only looks up keys that are present). -/
def dictGet (g : List (Nat × List Entry)) (k : Nat) : List Entry :=
  match g with
  | [] => []
  | (k2, es) :: rest => if k2 = k then es else dictGet rest k

/-! ## `generate_entry_page` -/

/-- The HTML document produced for one entry page. -/
def generate_entry_page_html (e : Entry) : String :=
  entryPageA ++ e.date_str ++ entryPageB ++ e.date_str ++ entryPageC ++
    toString e.year ++ entryPageD ++ toString e.year ++ entryPageE ++
    e.title ++ entryPageF ++ format_content_to_html e.content ++ entryPageG

/-- The output path of one entry page, as path components under the output
root: `<year>/<month_name>/<filename>.html`. -/
def entry_output_path (e : Entry) : List String :=
  [toString e.year, e.month_name, e.filename ++ ".html"]

/-! ## `generate_year_index` -/

/-- The year-index preview of an entry's content: first line cut to 100
characters, with the ellipsis appended when the whole content is longer
than 100 characters. -/
def year_index_preview (content : String) : String :=
  let preview := pyTake (firstLineOf content) 100
  if 100 < content.length then preview ++ "..." else preview

/-- One `<li>` line of a year index. -/
def year_index_li (e : Entry) : String :=
  "<li><a href=\"" ++ e.month_name ++ "/" ++ e.filename ++ ".html\">" ++
    e.date_str ++ "</a> - " ++ year_index_preview e.content ++ "</li>"

/-- The month lists a year index iterates over: month numbers sorted in
reverse, each with its entries sorted by day in reverse. -/
def year_index_pairs (entries : List Entry) : List (Nat × List Entry) :=
  let months := groupByKey (fun e => e.month) entries
  let sorted_months := pySorted (fun a b => decide (b ≤ a)) (months.map Prod.fst)
  sorted_months.map
    (fun m => (m, pySorted (fun a b => decide (b.day ≤ a.day)) (dictGet months m)))

/-- One month section of a year index (the month heading comes from the first
entry of the already-sorted month list). -/
def month_section (month_entries : List Entry) : String :=
  msA ++ pyCapitalize (month_entries.headD entryDefault).month_name ++ msB ++
    String.join (month_entries.map year_index_li) ++ msC

/-- The HTML document of one year index. -/
def generate_year_index_html (year : Nat) (entries : List Entry) : String :=
  let month_sections := (year_index_pairs entries).map (fun p => month_section p.2)
  yiA ++ toString year ++ yiB ++ toString year ++ yiC ++
    String.join month_sections ++ yiD

/-- The output path of a year index: `<year>/<year>-index.html`. -/
def year_index_path (year : Nat) : List String :=
  [toString year, toString year ++ "-index.html"]

/-! ## `generate_landing_page` -/

/-- The landing-page preview of an entry's content: first line cut to 80
characters, with the ellipsis appended when the whole content is longer
than 80 characters. -/
def landing_preview (content : String) : String :=
  let preview := pyTake (firstLineOf content) 80
  if 80 < content.length then preview ++ "..." else preview

/-- One `<li>` line of the landing page. -/
def landing_li (year : Nat) (e : Entry) : String :=
  "<li><a href=\"" ++ toString year ++ "/" ++ e.month_name ++ "/" ++
    e.filename ++ ".html\">" ++ e.date_str ++ "</a> - " ++
    landing_preview e.content ++ "</li>"

/-- The year lists the landing page iterates over: years sorted in reverse,
each with its entries sorted by date in reverse and cut to the first 3
("recent entries"). -/
def landing_pairs (all_entries : List Entry) : List (Nat × List Entry) :=
  let years := groupByKey (fun e => e.year) all_entries
  let sorted_years := pySorted (fun a b => decide (b ≤ a)) (years.map Prod.fst)
  sorted_years.map
    (fun y =>
      (y, (pySorted (fun a b => dateLe b.date_obj a.date_obj) (dictGet years y)).take 3))

/-- One year section of the landing page. -/
def landing_year_section (year : Nat) (recent_entries : List Entry) : String :=
  lsA ++ toString year ++ lsB ++ toString year ++ lsC ++ toString year ++ lsD ++
    String.join (recent_entries.map (landing_li year)) ++ lsE

/-- The horizontal-rule markup stripped from the last year section. -/
def hrMarkup : String := "<hr style=\"margin: 3em 0;\" />"

/-- Drop the `<hr />` from the last year section, as the program does before
assembling the landing page. -/
def removeLastHr (sections : List String) : List String :=
  match sections with
  | [] => []
  | s :: ss =>
    (s :: ss).dropLast ++ [pyReplaceStr ((s :: ss).getLastD "") hrMarkup ""]

/-- The HTML document of the landing page. -/
def generate_landing_page_html (all_entries : List Entry) : String :=
  let year_sections :=
    (landing_pairs all_entries).map (fun p => landing_year_section p.1 p.2)
  lpA ++ String.join (removeLastHr year_sections) ++ lpB

/-! ## `main` -/

/-- A run's observable outcome: console messages and file writes (path
components under the output root, paired with the text written). -/
structure RunResult where
  messages : List String
  writes : List (List String × String)
deriving DecidableEq

/-- The entries successfully parsed from the discovered files, in directory
order. -/
def parsedEntries (files : List (String × String)) : List Entry :=
  files.filterMap (fun f =>
    match parse_entry_file f.1 f.2 with
    | ParseResult.ok e => some e
    | _ => none)

/-- The warnings printed while parsing the discovered files. -/
def parseWarnings (files : List (String × String)) : List String :=
  files.filterMap (fun f =>
    match parse_entry_file f.1 f.2 with
    | ParseResult.skippedBadDate w => some w
    | _ => none)

/-- Sort key for the chronological sort in `main`. -/
def entryDateLe (a b : Entry) : Bool := dateLe a.date_obj b.date_obj

/-- All writes of a successful run: one page per entry (in ascending date
order), one index per year (years in first-appearance order of the sorted
list, i.e. ascending), then the landing page. -/
def buildWrites (all_entries : List Entry) : List (List String × String) :=
  let sorted_entries := pySorted entryDateLe all_entries
  (sorted_entries.map fun e => (entry_output_path e, generate_entry_page_html e)) ++
    ((groupByKey (fun e => e.year) sorted_entries).map
      (fun p => (year_index_path p.1, generate_year_index_html p.1 p.2))) ++
    [(["diaryLanding.html"], generate_landing_page_html sorted_entries)]

/-- `main()`. The file system is presented as `none` when the entries
directory is missing, and `some files` otherwise, with `files` the
`(stem, text)` pairs of the discovered `*.txt` files. Console output is
modelled up to the messages the error-handling design talks about
(scanning banner, error reports and per-file warnings). -/
def mainRun (entriesDir : String) (fs : Option (List (String × String))) :
    RunResult :=
  let scanMsg := "🔍 Scanning for diary entries..."
  match fs with
  | none =>
    { messages := [scanMsg,
        "❌ Error: Entries directory not found at " ++ entriesDir,
        "   Please create it and add your .txt files"],
      writes := [] }
  | some txt_files =>
    if txt_files = [] then
      { messages := [scanMsg, "❌ No .txt files found in " ++ entriesDir],
        writes := [] }
    else
      let foundMsg := "📝 Found " ++ toString txt_files.length ++ " entries"
      let all_entries := parsedEntries txt_files
      if all_entries = [] then
        { messages := [scanMsg, foundMsg] ++ parseWarnings txt_files ++
            ["❌ No valid entries found"],
          writes := [] }
      else
        { messages := [scanMsg, foundMsg] ++ parseWarnings txt_files,
          writes := buildWrites all_entries }

/-! ## The output directory as a store of written files -/

/-- Overwrite semantics of one file write. -/
def applyWrite (σ : List String → Option String) (w : List String × String) :
    List String → Option String :=
  fun p => if p = w.1 then some w.2 else σ p

/-- Perform a run's writes in order on an output-directory state. -/
def applyWrites (σ : List String → Option String)
    (ws : List (List String × String)) : List String → Option String :=
  ws.foldl applyWrite σ

/-! ## Lemmas about the stable sort -/

theorem insertS_perm (le : α → α → Bool) (x : α) (l : List α) :
    List.Perm (insertS le x l) (x :: l) := by
  induction l with
  | nil => exact List.Perm.refl _
  | cons y ys ih =>
    unfold insertS
    split
    · exact List.Perm.refl _
    · exact (List.Perm.cons y ih).trans (List.Perm.swap x y ys)

theorem pySorted_perm (le : α → α → Bool) (l : List α) :
    List.Perm (pySorted le l) l := by
  induction l with
  | nil => exact List.Perm.refl _
  | cons x xs ih =>
    exact (insertS_perm le x (pySorted le xs)).trans (List.Perm.cons x ih)

theorem insertS_pairwise (le : α → α → Bool)
    (total : ∀ a b, le a b = true ∨ le b a = true)
    (trans : ∀ a b c, le a b = true → le b c = true → le a c = true)
    (x : α) (l : List α) (h : l.Pairwise (fun a b => le a b = true)) :
    (insertS le x l).Pairwise (fun a b => le a b = true) := by
  induction l with
  | nil => simp [insertS]
  | cons y ys ih =>
    rw [List.pairwise_cons] at h
    obtain ⟨hy, hys⟩ := h
    unfold insertS
    split
    case isTrue hxy =>
      refine List.Pairwise.cons ?_ (List.Pairwise.cons hy hys)
      intro b hb
      rcases List.mem_cons.mp hb with rfl | hb2
      · exact hxy
      · exact trans x y b hxy (hy b hb2)
    case isFalse hxy =>
      refine List.Pairwise.cons ?_ (ih hys)
      intro b hb
      have hb2 : b ∈ x :: ys := (insertS_perm le x ys).mem_iff.mp hb
      rcases List.mem_cons.mp hb2 with rfl | hb3
      · rcases total b y with h1 | h1
        · exact absurd h1 hxy
        · exact h1
      · exact hy b hb3

theorem pySorted_pairwise (le : α → α → Bool)
    (total : ∀ a b, le a b = true ∨ le b a = true)
    (trans : ∀ a b c, le a b = true → le b c = true → le a c = true)
    (l : List α) :
    (pySorted le l).Pairwise (fun a b => le a b = true) := by
  induction l with
  | nil => simp [pySorted]
  | cons x xs ih => exact insertS_pairwise le total trans x (pySorted le xs) ih

theorem pairwise_and {R S : α → α → Prop} :
    ∀ {l : List α}, l.Pairwise R → l.Pairwise S →
      l.Pairwise (fun a b => R a b ∧ S a b)
  | [], _, _ => List.Pairwise.nil
  | _ :: _, List.Pairwise.cons hr hrs, List.Pairwise.cons hs hss =>
    List.Pairwise.cons (fun b hb => ⟨hr b hb, hs b hb⟩) (pairwise_and hrs hss)

/-- The reverse-sorted list of distinct natural keys is strictly decreasing. -/
theorem pySorted_nat_rev_strict (l : List Nat) (hnd : l.Nodup) :
    (pySorted (fun a b => decide (b ≤ a)) l).Pairwise (fun a b => b < a) := by
  have hle := pySorted_pairwise (fun a b : Nat => decide (b ≤ a))
    (fun a b => by rcases Nat.le_total b a with h | h <;> simp [h])
    (fun a b c h1 h2 => by
      simp only [decide_eq_true_eq] at h1 h2 ⊢
      omega)
    l
  have hnd2 : (pySorted (fun a b : Nat => decide (b ≤ a)) l).Nodup :=
    (pySorted_perm _ l).nodup_iff.mpr hnd
  refine (pairwise_and hle hnd2).imp ?_
  intro a b hab
  have h1 : b ≤ a := by simpa using hab.1
  omega

/-! ## Lemmas about the grouping -/

theorem keys_addToGroups (g : List (Nat × List Entry)) (k : Nat) (e : Entry) :
    (addToGroups g k e).map Prod.fst =
      if k ∈ g.map Prod.fst then g.map Prod.fst else g.map Prod.fst ++ [k] := by
  induction g with
  | nil => simp [addToGroups]
  | cons p rest ih =>
    obtain ⟨k2, es⟩ := p
    by_cases h : k2 = k
    · subst h
      simp [addToGroups]
    · simp only [addToGroups, if_neg h, List.map_cons, ih]
      have hmem : (k ∈ k2 :: rest.map Prod.fst) ↔ (k ∈ rest.map Prod.fst) := by
        simp [List.mem_cons, Ne.symm h]
      by_cases h2 : k ∈ rest.map Prod.fst <;> simp_all

theorem mem_keys_addToGroups (g : List (Nat × List Entry)) (k k' : Nat) (e : Entry) :
    k ∈ (addToGroups g k' e).map Prod.fst ↔ k ∈ g.map Prod.fst ∨ k = k' := by
  rw [keys_addToGroups]
  split
  case isTrue h =>
    constructor
    · exact fun h2 => Or.inl h2
    · rintro (h2 | rfl)
      · exact h2
      · exact h
  case isFalse h => simp [List.mem_append]

theorem nodup_keys_addToGroups (g : List (Nat × List Entry)) (k : Nat) (e : Entry)
    (h : (g.map Prod.fst).Nodup) : ((addToGroups g k e).map Prod.fst).Nodup := by
  rw [keys_addToGroups]
  split
  · exact h
  case isFalse h2 =>
    refine List.nodup_append.mpr ⟨h, List.nodup_singleton k, ?_⟩
    intro a ha hak
    rw [List.mem_singleton] at hak
    exact h2 (hak ▸ ha)

theorem nodup_keys_foldl (key : Entry → Nat) (l : List Entry) :
    ∀ acc : List (Nat × List Entry), (acc.map Prod.fst).Nodup →
      ((l.foldl (fun acc e => addToGroups acc (key e) e) acc).map Prod.fst).Nodup := by
  induction l with
  | nil => intro acc h; simpa using h
  | cons e rest ih =>
    intro acc h
    exact ih (addToGroups acc (key e) e) (nodup_keys_addToGroups acc (key e) e h)

theorem nodup_keys_groupByKey (key : Entry → Nat) (l : List Entry) :
    ((groupByKey key l).map Prod.fst).Nodup :=
  nodup_keys_foldl key l [] (by simp)

theorem mem_keys_foldl (key : Entry → Nat) (l : List Entry) (k : Nat) :
    ∀ acc : List (Nat × List Entry),
      (k ∈ (l.foldl (fun acc e => addToGroups acc (key e) e) acc).map Prod.fst ↔
        k ∈ acc.map Prod.fst ∨ ∃ e, e ∈ l ∧ key e = k) := by
  induction l with
  | nil => intro acc; simp
  | cons e rest ih =>
    intro acc
    rw [List.foldl_cons, ih (addToGroups acc (key e) e), mem_keys_addToGroups]
    constructor
    · rintro ((h | rfl) | ⟨e2, he2, rfl⟩)
      · exact Or.inl h
      · exact Or.inr ⟨e, List.mem_cons_self e rest, rfl⟩
      · exact Or.inr ⟨e2, List.mem_cons_of_mem e he2, rfl⟩
    · rintro (h | ⟨e2, he2, rfl⟩)
      · exact Or.inl (Or.inl h)
      · rcases List.mem_cons.mp he2 with rfl | h3
        · exact Or.inl (Or.inr rfl)
        · exact Or.inr ⟨e2, h3, rfl⟩

theorem mem_keys_groupByKey (key : Entry → Nat) (l : List Entry) (k : Nat) :
    k ∈ (groupByKey key l).map Prod.fst ↔ ∃ e, e ∈ l ∧ key e = k := by
  rw [groupByKey, mem_keys_foldl]
  simp

theorem dictGet_addToGroups (g : List (Nat × List Entry)) (k k' : Nat) (e : Entry) :
    dictGet (addToGroups g k' e) k =
      if k' = k then dictGet g k ++ [e] else dictGet g k := by
  induction g with
  | nil =>
    by_cases h : k' = k
    · subst h; simp [addToGroups, dictGet]
    · simp [addToGroups, dictGet, h]
  | cons p rest ih =>
    obtain ⟨k2, es⟩ := p
    by_cases h2 : k2 = k'
    · subst h2
      by_cases h3 : k2 = k
      · subst h3; simp [addToGroups, dictGet]
      · simp [addToGroups, dictGet, h3]
    · by_cases h3 : k2 = k
      · subst h3
        have h4 : ¬ k' = k2 := fun h => h2 h.symm
        simp [addToGroups, dictGet, h2, h4]
      · simp [addToGroups, dictGet, h2, h3, ih]

theorem dictGet_foldl (key : Entry → Nat) (l : List Entry) (k : Nat) :
    ∀ acc : List (Nat × List Entry),
      dictGet (l.foldl (fun acc e => addToGroups acc (key e) e) acc) k =
        dictGet acc k ++ l.filter (fun e => key e = k) := by
  induction l with
  | nil => intro acc; simp
  | cons e rest ih =>
    intro acc
    rw [List.foldl_cons, ih (addToGroups acc (key e) e), dictGet_addToGroups]
    by_cases h : key e = k
    · simp [List.filter_cons, h]
    · simp [List.filter_cons, h]

theorem dictGet_groupByKey (key : Entry → Nat) (l : List Entry) (k : Nat) :
    dictGet (groupByKey key l) k = l.filter (fun e => key e = k) := by
  rw [groupByKey, dictGet_foldl]
  rfl

/-! ## Lemmas about `dateLe` -/

theorem dateLe_iff (a b : Date) :
    dateLe a b = true ↔
      (a.year < b.year ∨ (a.year = b.year ∧
        (a.month < b.month ∨ (a.month = b.month ∧ a.day ≤ b.day)))) := by
  simp [dateLe]

theorem dateLe_total (a b : Date) : dateLe a b = true ∨ dateLe b a = true := by
  rw [dateLe_iff, dateLe_iff]
  omega

theorem dateLe_trans (a b c : Date)
    (h1 : dateLe a b = true) (h2 : dateLe b c = true) : dateLe a c = true := by
  rw [dateLe_iff] at h1 h2 ⊢
  omega

/-! ## Lemmas about applying writes -/

/-- The value the write list leaves at path `p`, starting from a default. -/
def lastValFrom (init : Option String) (ws : List (List String × String))
    (p : List String) : Option String :=
  ws.foldl (fun acc w => if p = w.1 then some w.2 else acc) init

theorem lastValFrom_shift (ws : List (List String × String)) (p : List String) :
    ∀ init : Option String,
      lastValFrom init ws p =
        match lastValFrom none ws p with
        | some v => some v
        | none => init := by
  induction ws with
  | nil => intro init; simp [lastValFrom]
  | cons w ws ih =>
    intro init
    show lastValFrom (if p = w.1 then some w.2 else init) ws p = _
    rw [ih (if p = w.1 then some w.2 else init)]
    have h2 : lastValFrom none (w :: ws) p =
        lastValFrom (if p = w.1 then some w.2 else none) ws p := rfl
    rw [h2, ih (if p = w.1 then some w.2 else none)]
    rcases h3 : lastValFrom none ws p with _ | v
    · by_cases h4 : p = w.1 <;> simp [h4]
    · simp

theorem applyWrites_apply (ws : List (List String × String)) (p : List String) :
    ∀ σ : List String → Option String,
      applyWrites σ ws p =
        match lastValFrom none ws p with
        | some v => some v
        | none => σ p := by
  induction ws with
  | nil => intro σ; simp [applyWrites, lastValFrom]
  | cons w ws ih =>
    intro σ
    show applyWrites (applyWrite σ w) ws p = _
    rw [ih (applyWrite σ w)]
    have h2 : lastValFrom none (w :: ws) p =
        lastValFrom (if p = w.1 then some w.2 else none) ws p := rfl
    rw [h2, lastValFrom_shift ws p (if p = w.1 then some w.2 else none)]
    rcases h3 : lastValFrom none ws p with _ | v
    · by_cases h4 : p = w.1 <;> simp [h3, h4, applyWrite]
    · simp [h3]

theorem applyWrites_twice (ws : List (List String × String))
    (σ : List String → Option String) :
    applyWrites (applyWrites σ ws) ws = applyWrites σ ws := by
  funext p
  rw [applyWrites_apply, applyWrites_apply]
  rcases h : lastValFrom none ws p with _ | v <;> simp [h]

/-! ## Lemmas about content formatting -/

theorem format_parts_foldl (l : List String) :
    ∀ acc : List String,
      (l.foldl
        (fun html_parts para =>
          let para2 := pyStrip para
          if para2 ≠ "" then
            html_parts ++ ["<p>" ++ (⟨replaceNlBr para2.data⟩ : String) ++ "</p>"]
          else html_parts)
        acc) =
      acc ++ l.filterMap (fun para =>
        let p := pyStrip para
        if p = "" then none
        else some ("<p>" ++ (⟨replaceNlBr p.data⟩ : String) ++ "</p>")) := by
  induction l with
  | nil => intro acc; simp
  | cons para rest ih =>
    intro acc
    rw [List.foldl_cons, ih]
    by_cases h : pyStrip para = "" <;> simp [List.filterMap_cons, h]

/-- The paragraph blocks, described as the spec does: split on blank-line
boundaries, drop what trims to empty, wrap the rest. -/
def paragraphBlocks (content : String) : List String :=
  (pySplitBlank content).filterMap (fun para =>
    let p := pyStrip para
    if p = "" then none
    else some ("<p>" ++ (⟨replaceNlBr p.data⟩ : String) ++ "</p>"))

theorem format_content_parts_eq (content : String) :
    format_content_parts content = paragraphBlocks content := by
  rw [format_content_parts, paragraphBlocks, format_parts_foldl]
  rfl

/-! ## Newline-free strings pass through untouched -/

theorem splitBlank_no_nl (cs : List Char) (h : '\n' ∉ cs) : splitBlank cs = [cs] := by
  induction cs with
  | nil => rfl
  | cons c rest ih =>
    have hc : ¬ c = '\n' := fun hx => h (hx ▸ List.mem_cons_self c rest)
    cases rest with
    | nil => simp [splitBlank]
    | cons c2 rest2 =>
      have hrest : '\n' ∉ c2 :: rest2 := fun hx => h (List.mem_cons_of_mem c hx)
      rw [splitBlank, if_neg (fun hand => hc hand.1), ih hrest]
      rfl

theorem replaceNlBr_no_nl (cs : List Char) (h : '\n' ∉ cs) : replaceNlBr cs = cs := by
  induction cs with
  | nil => rfl
  | cons c rest ih =>
    have hc : ¬ c = '\n' := fun hx => h (hx ▸ List.mem_cons_self c rest)
    have hrest : '\n' ∉ rest := fun hx => h (List.mem_cons_of_mem c hx)
    rw [replaceNlBr, if_neg hc, ih hrest]

theorem mem_stripChars (cs : List Char) (a : Char) (h : a ∈ stripChars cs) : a ∈ cs := by
  rw [stripChars] at h
  rw [List.mem_reverse] at h
  have h2 := (List.dropWhile_sublist isPySpace).mem h
  rw [List.mem_reverse] at h2
  exact (List.dropWhile_sublist isPySpace).mem h2

theorem pyStrip_no_nl (s : String) (h : '\n' ∉ s.data) : '\n' ∉ (pyStrip s).data :=
  fun hx => h (mem_stripChars s.data '\n' hx)

theorem string_append_assoc (a b c : String) : (a ++ b) ++ c = a ++ (b ++ c) := by
  apply String.ext
  simp [String.data_append]

/-- A single paragraph with no internal newline is rendered verbatim between
paragraph tags. -/
theorem format_single_para (s : String) (h1 : '\n' ∉ s.data) (h2 : pyStrip s ≠ "") :
    format_content_to_html s = "<p>" ++ pyStrip s ++ "</p>" := by
  have hsplit : pySplitBlank s = [s] := by
    rw [pySplitBlank, splitBlank_no_nl s.data h1]
    rfl
  have hrep : replaceNlBr (pyStrip s).data = (pyStrip s).data :=
    replaceNlBr_no_nl _ (pyStrip_no_nl s h1)
  rw [format_content_to_html, format_content_parts_eq, paragraphBlocks, hsplit]
  simp only [List.filterMap_cons, if_neg h2, hrep]
  rfl

theorem blocks_length_aux (l : List String) :
    (l.filterMap (fun para =>
      let p := pyStrip para
      if p = "" then none
      else some ("<p>" ++ (⟨replaceNlBr p.data⟩ : String) ++ "</p>"))).length =
    (l.filter (fun para => pyStrip para ≠ "")).length := by
  induction l with
  | nil => rfl
  | cons para rest ih =>
    by_cases h : pyStrip para = "" <;>
      simp [List.filterMap_cons, List.filter_cons, h, ih]

/-- `part` occurs verbatim (character for character) inside `whole`. -/
def containsSub (whole part : String) : Prop :=
  ∃ s t, whole = s ++ part ++ t

theorem year_index_preview_eq (content : String) :
    year_index_preview content =
      if 100 < content.length then pyTake (firstLineOf content) 100 ++ "..."
      else pyTake (firstLineOf content) 100 := rfl

theorem landing_preview_eq (content : String) :
    landing_preview content =
      if 80 < content.length then pyTake (firstLineOf content) 80 ++ "..."
      else pyTake (firstLineOf content) 80 := rfl

/-- C1: on a year index, the preview of an entry is the first line of its
content truncated to 100 characters, and the ellipsis marker is appended
exactly when the length of the whole content (not of the first line) exceeds
100; the landing page follows the same rule with the limit 80. -/
theorem preview_truncation_rule (content : String) :
    (¬ 100 < content.length →
       year_index_preview content = pyTake (firstLineOf content) 100)
    ∧ (year_index_preview content = pyTake (firstLineOf content) 100 ++ "..." ↔
       100 < content.length)
    ∧ (¬ 80 < content.length →
       landing_preview content = pyTake (firstLineOf content) 80)
    ∧ (landing_preview content = pyTake (firstLineOf content) 80 ++ "..." ↔
       80 < content.length) := by
  refine ⟨?_, ?_, ?_, ?_⟩
  · intro h; rw [year_index_preview_eq, if_neg h]
  · by_cases h : 100 < content.length
    · rw [year_index_preview_eq, if_pos h]
      exact iff_of_true rfl h
    · rw [year_index_preview_eq, if_neg h]
      refine iff_of_false ?_ h
      intro heq
      have hlen := congrArg String.length heq
      rw [String.length_append] at hlen
      have h3 : ("..." : String).length = 3 := rfl
      omega
  · intro h; rw [landing_preview_eq, if_neg h]
  · by_cases h : 80 < content.length
    · rw [landing_preview_eq, if_pos h]
      exact iff_of_true rfl h
    · rw [landing_preview_eq, if_neg h]
      refine iff_of_false ?_ h
      intro heq
      have hlen := congrArg String.length heq
      rw [String.length_append] at hlen
      have h3 : ("..." : String).length = 3 := rfl
      omega

/-- Content exhibiting the truncation quirk: the first line has 40
characters but the whole content has 150. -/
def demoLongContent : String :=
  "0123456789012345678901234567890123456789" ++ "\n" ++
    String.mk (List.replicate 109 'b')

set_option maxRecDepth 8192 in
theorem preview_truncation_rule_witness :
    demoLongContent.length = 150
    ∧ (firstLineOf demoLongContent).length = 40
    ∧ year_index_preview demoLongContent = pyTake (firstLineOf demoLongContent) 100 ++ "..."
    ∧ landing_preview demoLongContent = pyTake (firstLineOf demoLongContent) 80 ++ "..."
    ∧ year_index_preview "short" = pyTake (firstLineOf "short") 100 :=
  ⟨by decide, by decide,
   (preview_truncation_rule demoLongContent).2.1.mpr (by decide),
   (preview_truncation_rule demoLongContent).2.2.2.mpr (by decide),
   (preview_truncation_rule "short").1 (by decide)⟩

/-- C5: an entry page carries exactly one paragraph element per non-empty
blank-line-delimited segment of the content: the content is split at blank
lines, segments that trim to nothing are dropped, and inside a kept segment
each single newline becomes an explicit line break. -/
theorem paragraph_rendering_rule (content : String) :
    format_content_parts content = paragraphBlocks content
    ∧ (format_content_parts content).length =
        ((pySplitBlank content).filter (fun para => pyStrip para ≠ "")).length
    ∧ format_content_to_html content = joinSep "\n\n" (paragraphBlocks content)
    ∧ ∀ e : Entry,
        containsSub (generate_entry_page_html e) (format_content_to_html e.content) := by
  refine ⟨format_content_parts_eq content, ?_, ?_, ?_⟩
  · rw [format_content_parts_eq, paragraphBlocks]
    exact blocks_length_aux _
  · rw [format_content_to_html, format_content_parts_eq]
  · intro e
    refine ⟨entryPageA ++ e.date_str ++ entryPageB ++ e.date_str ++ entryPageC ++
      toString e.year ++ entryPageD ++ toString e.year ++ entryPageE ++ e.title ++
      entryPageF, entryPageG, ?_⟩
    simp [generate_entry_page_html, string_append_assoc]

/-- C10: no HTML escaping anywhere — the date display, title, rendered
content and the previews are interpolated into the page text character for
character, so markup characters from the source files land in the output
verbatim. -/
theorem no_html_escaping :
    (∀ e : Entry,
       containsSub (generate_entry_page_html e) e.date_str
       ∧ containsSub (generate_entry_page_html e) e.title
       ∧ containsSub (year_index_li e) (year_index_preview e.content)
       ∧ ∀ y : Nat, containsSub (landing_li y e) (landing_preview e.content))
    ∧ (∀ s : String, '\n' ∉ s.data → pyStrip s ≠ "" →
        format_content_to_html s = "<p>" ++ pyStrip s ++ "</p>") := by
  constructor
  · intro e
    refine ⟨⟨entryPageA, ?_⟩, ⟨entryPageA ++ e.date_str ++ entryPageB ++ e.date_str ++
      entryPageC ++ toString e.year ++ entryPageD ++ toString e.year ++ entryPageE, ?_⟩,
      ⟨"<li><a href=\"" ++ e.month_name ++ "/" ++ e.filename ++ ".html\">" ++
        e.date_str ++ "</a> - ", ?_⟩, ?_⟩
    · exact ⟨entryPageB ++ e.date_str ++ entryPageC ++ toString e.year ++ entryPageD ++
        toString e.year ++ entryPageE ++ e.title ++ entryPageF ++
        format_content_to_html e.content ++ entryPageG,
        by simp [generate_entry_page_html, string_append_assoc]⟩
    · exact ⟨entryPageF ++ format_content_to_html e.content ++ entryPageG,
        by simp [generate_entry_page_html, string_append_assoc]⟩
    · exact ⟨"</li>", by simp [year_index_li, string_append_assoc]⟩
    · intro y
      exact ⟨"<li><a href=\"" ++ toString y ++ "/" ++ e.month_name ++ "/" ++
        e.filename ++ ".html\">" ++ e.date_str ++ "</a> - ", "</li>",
        by simp [landing_li, string_append_assoc]⟩
  · exact fun s h1 h2 => format_single_para s h1 h2

/-- An entry whose displayed fields carry raw HTML markup. -/
def demoEvil : Entry :=
  { date_str := "D<i>ate</i>", title := "<script>alert(1)</script>",
    content := "a < b & c", year := 2025, month := 3, month_name := "march",
    day := 5, filename := "2025-03-05", date_obj := ⟨2025, 3, 5⟩ }

theorem no_html_escaping_witness :
    format_content_to_html "a < b & c" = "<p>a < b & c</p>"
    ∧ containsSub (generate_entry_page_html demoEvil) "<script>alert(1)</script>" :=
  ⟨(no_html_escaping.2 "a < b & c" (by decide) (by decide)).trans (by decide),
   (no_html_escaping.1 demoEvil).2.1⟩

/-- Totality/transitivity package for the day-descending comparison. -/
theorem dayRev_total (a b : Entry) :
    decide (b.day ≤ a.day) = true ∨ decide (a.day ≤ b.day) = true := by
  rcases Nat.le_total b.day a.day with h | h <;> simp [h]

theorem dayRev_trans (a b c : Entry)
    (h1 : decide (b.day ≤ a.day) = true) (h2 : decide (c.day ≤ b.day) = true) :
    decide (c.day ≤ a.day) = true := by
  simp only [decide_eq_true_eq] at h1 h2 ⊢
  omega

theorem dateRev_total (a b : Entry) :
    dateLe b.date_obj a.date_obj = true ∨ dateLe a.date_obj b.date_obj = true :=
  dateLe_total b.date_obj a.date_obj

theorem dateRev_trans (a b c : Entry)
    (h1 : dateLe b.date_obj a.date_obj = true)
    (h2 : dateLe c.date_obj b.date_obj = true) :
    dateLe c.date_obj a.date_obj = true :=
  dateLe_trans c.date_obj b.date_obj a.date_obj h2 h1

theorem year_index_pairs_keys (entries : List Entry) :
    (year_index_pairs entries).map Prod.fst =
      pySorted (fun a b => decide (b ≤ a))
        ((groupByKey (fun e => e.month) entries).map Prod.fst) := by
  rw [year_index_pairs, List.map_map]
  simp [Function.comp_def]

theorem landing_pairs_keys (all_entries : List Entry) :
    (landing_pairs all_entries).map Prod.fst =
      pySorted (fun a b => decide (b ≤ a))
        ((groupByKey (fun e => e.year) all_entries).map Prod.fst) := by
  rw [landing_pairs, List.map_map]
  simp [Function.comp_def]

/-- C6: a year index enumerates the months present among its entries in
strictly descending numeric order, and lists the entries of each month in
descending order of day (each month section holds exactly that month's
entries). -/
theorem year_index_ordering (entries : List Entry) :
    ((year_index_pairs entries).map Prod.fst).Pairwise (fun a b => b < a)
    ∧ (∀ m, m ∈ (year_index_pairs entries).map Prod.fst ↔
        ∃ e, e ∈ entries ∧ e.month = m)
    ∧ (∀ p, p ∈ year_index_pairs entries →
        p.2.Pairwise (fun a b : Entry => b.day ≤ a.day)
        ∧ List.Perm p.2 (entries.filter (fun e => e.month = p.1))) := by
  refine ⟨?_, ?_, ?_⟩
  · rw [year_index_pairs_keys]
    exact pySorted_nat_rev_strict _ (nodup_keys_groupByKey _ _)
  · intro m
    rw [year_index_pairs_keys, (pySorted_perm _ _).mem_iff, mem_keys_groupByKey]
  · intro p hp
    rw [year_index_pairs, List.mem_map] at hp
    obtain ⟨m, _, rfl⟩ := hp
    constructor
    · refine (pySorted_pairwise _ dayRev_total
        (fun a b c h1 h2 => dayRev_trans a b c h1 h2) _).imp ?_
      intro a b hab
      simpa using hab
    · have hfil := dictGet_groupByKey (fun e => e.month) entries m
      show (pySorted (fun a b => decide (b.day ≤ a.day))
          (dictGet (groupByKey (fun e => e.month) entries) m)).Perm
          (entries.filter (fun e => e.month = m))
      rw [hfil]
      exact pySorted_perm _ _

/-- Entries used to exercise the ordering/grouping claims. -/
def demoJan : Entry :=
  { date_str := "Jan 10, 2024", title := "T1", content := "one",
    year := 2024, month := 1, month_name := "january", day := 10,
    filename := "2024-01-10", date_obj := ⟨2024, 1, 10⟩ }

def demoMar : Entry :=
  { date_str := "Mar 2, 2024", title := "T2", content := "two",
    year := 2024, month := 3, month_name := "march", day := 2,
    filename := "2024-03-02", date_obj := ⟨2024, 3, 2⟩ }

def demoDec : Entry :=
  { date_str := "Dec 25, 2023", title := "T3", content := "three",
    year := 2023, month := 12, month_name := "december", day := 25,
    filename := "2023-12-25", date_obj := ⟨2023, 12, 25⟩ }

def demoEntries : List Entry := [demoJan, demoMar]

theorem year_index_ordering_witness :
    (∃ e, e ∈ demoEntries ∧ e.month = 3)
    ∧ ([demoMar] : List Entry).Pairwise (fun a b : Entry => b.day ≤ a.day) :=
  ⟨((year_index_ordering demoEntries).2.1 3).mp (by decide),
   ((year_index_ordering demoEntries).2.2 (3, [demoMar]) (by decide)).1⟩

/-- C7: the landing page enumerates the years present in the input in
strictly descending order, and each year section holds exactly the first 3
entries of that year under the date-descending order (all of them when the
year has fewer than 3). -/
theorem landing_page_ordering (all_entries : List Entry) :
    ((landing_pairs all_entries).map Prod.fst).Pairwise (fun a b => b < a)
    ∧ (∀ y, y ∈ (landing_pairs all_entries).map Prod.fst ↔
        ∃ e, e ∈ all_entries ∧ e.year = y)
    ∧ (∀ p, p ∈ landing_pairs all_entries →
        p.2 = (pySorted (fun a b => dateLe b.date_obj a.date_obj)
                (all_entries.filter (fun e => e.year = p.1))).take 3
        ∧ p.2.Pairwise (fun a b : Entry => dateLe b.date_obj a.date_obj = true)
        ∧ p.2.length = min 3 (all_entries.filter (fun e => e.year = p.1)).length) := by
  refine ⟨?_, ?_, ?_⟩
  · rw [landing_pairs_keys]
    exact pySorted_nat_rev_strict _ (nodup_keys_groupByKey _ _)
  · intro y
    rw [landing_pairs_keys, (pySorted_perm _ _).mem_iff, mem_keys_groupByKey]
  · intro p hp
    rw [landing_pairs, List.mem_map] at hp
    obtain ⟨y, _, rfl⟩ := hp
    have hfil := dictGet_groupByKey (fun e => e.year) all_entries y
    refine ⟨?_, ?_, ?_⟩
    · show List.take 3 _ = _
      rw [hfil]
    · exact List.Pairwise.sublist (List.take_sublist 3 _)
        (pySorted_pairwise _ dateRev_total
          (fun a b c h1 h2 => dateRev_trans a b c h1 h2) _)
    · show (List.take 3 _).length = _
      rw [List.length_take, (pySorted_perm _ _).length_eq, hfil]

def demoAll : List Entry := [demoJan, demoMar, demoDec]

theorem landing_page_ordering_witness :
    (∃ e, e ∈ demoAll ∧ e.year = 2023)
    ∧ ([demoMar, demoJan] : List Entry).length =
        min 3 (demoAll.filter (fun e => e.year = 2024)).length :=
  ⟨((landing_page_ordering demoAll).2.1 2023).mp (by decide),
   ((landing_page_ordering demoAll).2.2 (2024, [demoMar, demoJan]) (by decide)).2.2⟩

/-! ## Shape lemmas for `parse_entry_file` -/

theorem parse_bad_not_ok (stem text : String) (hn : strptimeYMD stem = none)
    (e : Entry) : parse_entry_file stem text ≠ ParseResult.ok e := by
  simp only [parse_entry_file, hn]
  split <;> simp

theorem parse_ok_shape (stem text : String) (e : Entry)
    (h : parse_entry_file stem text = ParseResult.ok e) :
    ∃ d, strptimeYMD stem = some d ∧ e.filename = stem ∧ e.year = d.year ∧
      e.month = d.month ∧ e.month_name = monthNameLower d.month ∧
      e.day = d.day ∧ e.date_obj = d := by
  rcases hs : strptimeYMD stem with _ | d
  · exact absurd h (parse_bad_not_ok stem text hs e)
  · refine ⟨d, rfl, ?_⟩
    simp only [parse_entry_file, hs] at h
    split at h
    · exact absurd h (by simp)
    · rw [ParseResult.ok.injEq] at h
      subst h
      simp

/-- Spec-side description: the output location determined by the filename
stem alone, through the same date parse. -/
def pathFromStem (stem : String) : List String :=
  match strptimeYMD stem with
  | some d => [toString d.year, monthNameLower d.month, stem ++ ".html"]
  | none => []

/-- C8: a parsed entry's page goes to the single output path
`<year>/<monthName>/<sourceId>.html`, all three components being derived
from the filename stem, so the stem alone determines the output location. -/
theorem output_path_from_stem (stem text : String) (e : Entry)
    (h : parse_entry_file stem text = ParseResult.ok e) :
    e.filename = stem
    ∧ entry_output_path e = pathFromStem stem
    ∧ ∀ text2 e2, parse_entry_file stem text2 = ParseResult.ok e2 →
        entry_output_path e2 = entry_output_path e := by
  obtain ⟨d, hs, hf, hy, _, hm, _, _⟩ := parse_ok_shape stem text e h
  have hpath : entry_output_path e = pathFromStem stem := by
    rw [entry_output_path, pathFromStem, hs, hf, hy, hm]
  refine ⟨hf, hpath, ?_⟩
  intro text2 e2 h2
  obtain ⟨d2, hs2, hf2, hy2, _, hm2, _, _⟩ := parse_ok_shape stem text2 e2 h2
  have hpath2 : entry_output_path e2 = pathFromStem stem := by
    rw [entry_output_path, pathFromStem, hs2, hf2, hy2, hm2]
  rw [hpath2, hpath]

/-- The entry parsed from `2025-03-05.txt` with a three-line body. -/
def demoParsed : Entry :=
  { date_str := "March 5, 2025", title := "Title", content := "Body",
    year := 2025, month := 3, month_name := "march", day := 5,
    filename := "2025-03-05", date_obj := ⟨2025, 3, 5⟩ }

theorem output_path_from_stem_witness :
    parse_entry_file "2025-03-05" "March 5, 2025\nTitle\nBody" = ParseResult.ok demoParsed
    ∧ entry_output_path demoParsed = pathFromStem "2025-03-05"
    ∧ pathFromStem "2025-03-05" = ["2025", "march", "2025-03-05.html"] :=
  ⟨by decide,
   (output_path_from_stem "2025-03-05" "March 5, 2025\nTitle\nBody" demoParsed
     (by decide)).2.1,
   by decide⟩

/-- C4: the title is the trimmed second line when that trim is non-empty;
otherwise the title is the fixed default "Diary Entry" and the second line,
if present, is folded into the content (content then starts at line 2
instead of line 3). -/
theorem title_defaulting_rule (stem text : String) (e : Entry)
    (h : parse_entry_file stem text = ParseResult.ok e) :
    ((1 < (readlines text).length ∧ pyStrip ((readlines text).getD 1 "") ≠ "") →
        e.title = pyStrip ((readlines text).getD 1 "")
        ∧ e.content = pyStrip (String.join ((readlines text).drop 2)))
    ∧ (¬(1 < (readlines text).length ∧ pyStrip ((readlines text).getD 1 "") ≠ "") →
        e.title = "Diary Entry"
        ∧ e.content = pyStrip (String.join ((readlines text).drop 1))) := by
  rcases hs : strptimeYMD stem with _ | d
  · exact absurd h (parse_bad_not_ok stem text hs e)
  · simp only [parse_entry_file, hs] at h
    split at h
    · exact absurd h (by simp)
    · rw [ParseResult.ok.injEq] at h
      subst h
      constructor
      · intro hc
        simp only [if_pos hc]
        constructor <;> simp
      · intro hc
        simp only [if_neg hc]
        constructor <;> simp

/-- The entry parsed from a file whose second line is blank. -/
def demoNoTitle : Entry :=
  { date_str := "March 5", title := "Diary Entry", content := "hello",
    year := 2025, month := 3, month_name := "march", day := 5,
    filename := "2025-03-05", date_obj := ⟨2025, 3, 5⟩ }

theorem title_defaulting_rule_witness :
    parse_entry_file "2025-03-05" "March 5\n\nhello" = ParseResult.ok demoNoTitle
    ∧ demoNoTitle.title = "Diary Entry"
    ∧ demoNoTitle.content = pyStrip (String.join ((readlines "March 5\n\nhello").drop 1)) :=
  ⟨by decide,
   ((title_defaulting_rule "2025-03-05" "March 5\n\nhello" demoNoTitle (by decide)).2
     (by decide)).1,
   ((title_defaulting_rule "2025-03-05" "March 5\n\nhello" demoNoTitle (by decide)).2
     (by decide)).2⟩

/-- C2 counterexample: the file `2025-03-05.txt` with empty contents has a
stem that parses as a date, yet no entry record is produced for it (it is
skipped silently at the zero-lines check, before the filename is ever
parsed), so "an entry record is produced if and only if the filename stem
parses" fails as stated for empty files. -/
theorem entry_record_iff_counterexample :
    (strptimeYMD "2025-03-05").isSome = true
    ∧ parse_entry_file "2025-03-05" "" = ParseResult.skippedEmpty
    ∧ ¬∃ e, parse_entry_file "2025-03-05" "" = ParseResult.ok e := by
  refine ⟨by decide, by decide, ?_⟩
  rintro ⟨e, he⟩
  have h0 : parse_entry_file "2025-03-05" "" = ParseResult.skippedEmpty := by decide
  rw [h0] at he
  exact ParseResult.noConfusion he

/-- C2 (amended): for every source file whose text has at least one line, an
entry record is produced if and only if the filename stem parses as a strict
`YYYY-MM-DD` calendar date; on a failed parse the file is skipped with a
warning naming the offending filename, and it contributes nothing to the
run's writes, which continue to be produced from the remaining files. -/
theorem entry_record_iff_amended (stem text : String) (h : readlines text ≠ []) :
    ((∃ e, parse_entry_file stem text = ParseResult.ok e) ↔
      (strptimeYMD stem).isSome = true)
    ∧ ((strptimeYMD stem).isSome = false →
        parse_entry_file stem text =
          ParseResult.skippedBadDate
            ("Warning: Could not parse date from filename " ++ stem))
    ∧ (∀ l1 l2 : List (String × String), (strptimeYMD stem).isSome = false →
        ∀ entriesDir,
          (mainRun entriesDir (some (l1 ++ (stem, text) :: l2))).writes =
            (mainRun entriesDir (some (l1 ++ l2))).writes) := by
  have hlen : ¬ (readlines text).length < 1 := by
    have h0 : 0 < (readlines text).length := List.length_pos.mpr h
    omega
  refine ⟨?_, ?_, ?_⟩
  · rcases hs : strptimeYMD stem with _ | d
    · refine iff_of_false ?_ (by simp)
      rintro ⟨e, he⟩
      exact parse_bad_not_ok stem text hs e he
    · refine iff_of_true ?_ (by simp)
      simp only [parse_entry_file, hs, if_neg hlen]
      exact ⟨_, rfl⟩
  · intro hs0
    have hs : strptimeYMD stem = none := by
      rcases hx : strptimeYMD stem with _ | d
      · rfl
      · rw [hx] at hs0; simp at hs0
    simp only [parse_entry_file, hs, if_neg hlen]
  · intro l1 l2 hs0 entriesDir
    have hs : strptimeYMD stem = none := by
      rcases hx : strptimeYMD stem with _ | d
      · rfl
      · rw [hx] at hs0; simp at hs0
    have hpe : parsedEntries (l1 ++ (stem, text) :: l2) = parsedEntries (l1 ++ l2) := by
      rw [parsedEntries, parsedEntries, List.filterMap_append, List.filterMap_append,
        List.filterMap_cons]
      rcases hp : parse_entry_file stem text with e | _ | w
      · exact absurd hp (parse_bad_not_ok stem text hs e)
      · rfl
      · rfl
    have hne : l1 ++ (stem, text) :: l2 ≠ [] := by simp
    by_cases h2 : l1 ++ l2 = []
    · have hnil : parsedEntries (l1 ++ (stem, text) :: l2) = [] := by
        rw [hpe, h2]; rfl
      simp [mainRun, hne, h2, hnil]
    · by_cases h3 : parsedEntries (l1 ++ l2) = [] <;>
        simp [mainRun, hne, h2, hpe, h3]

theorem entry_record_iff_amended_witness :
    readlines "x" ≠ []
    ∧ (∃ e, parse_entry_file "2025-03-05" "March 5, 2025\nTitle\nBody" = ParseResult.ok e)
    ∧ parse_entry_file "2025-13-01" "x" =
        ParseResult.skippedBadDate
          ("Warning: Could not parse date from filename " ++ "2025-13-01") :=
  ⟨by decide,
   (entry_record_iff_amended "2025-03-05" "March 5, 2025\nTitle\nBody"
     (by decide)).1.mpr (by decide),
   (entry_record_iff_amended "2025-13-01" "x" (by decide)).2.1 (by decide)⟩

/-- C3: under each of the three fatal conditions — missing source directory,
no source files, no file parsing into an entry — the run reports the
condition and terminates without writing any output file. -/
theorem fatal_conditions_no_output (entriesDir : String) :
    ((mainRun entriesDir none).writes = []
      ∧ ("❌ Error: Entries directory not found at " ++ entriesDir) ∈
          (mainRun entriesDir none).messages)
    ∧ ((mainRun entriesDir (some [])).writes = []
      ∧ ("❌ No .txt files found in " ++ entriesDir) ∈
          (mainRun entriesDir (some [])).messages)
    ∧ (∀ files, parsedEntries files = [] →
        (mainRun entriesDir (some files)).writes = []
        ∧ (files ≠ [] →
            "❌ No valid entries found" ∈ (mainRun entriesDir (some files)).messages)) := by
  refine ⟨⟨rfl, by simp [mainRun]⟩, ⟨by simp [mainRun], by simp [mainRun]⟩, ?_⟩
  intro files hp
  by_cases h : files = []
  · subst h
    exact ⟨by simp [mainRun], fun hx => absurd rfl hx⟩
  · constructor
    · simp [mainRun, h, hp]
    · intro _
      simp [mainRun, h, hp]

theorem fatal_conditions_no_output_witness :
    parsedEntries [("2025-13-01", "x")] = []
    ∧ (mainRun "entries" (some [("2025-13-01", "x")])).writes = [] :=
  ⟨by decide,
   ((fatal_conditions_no_output "entries").2.2 [("2025-13-01", "x")] (by decide)).1⟩

/-- C9: the generator is deterministic (as a pure function of the sources)
and idempotent: replaying the writes of a run on top of the state they
produced changes nothing, every write being an unconditional overwrite. -/
theorem rerun_idempotent (entriesDir : String) (fs : Option (List (String × String)))
    (σ : List String → Option String) :
    mainRun entriesDir fs = mainRun entriesDir fs
    ∧ applyWrites (applyWrites σ (mainRun entriesDir fs).writes)
        (mainRun entriesDir fs).writes = applyWrites σ (mainRun entriesDir fs).writes :=
  ⟨rfl, applyWrites_twice _ σ⟩
